import Mathlib

/-
Verification of the Plaso file-collector core (plaso/lib/collector.py)
against its natural-language specification.

The Python source is shallowly embedded below.  Pure functions become Lean
functions; the collector's side effects (enqueueing path specs, opening
volumes/snapshots, counting snapshot stores, closing the queue) are made
explicit as an ordered trace of `Event`s, and an escaping Python exception
is reported in the `err` field of the result.  External collaborators that
are not part of the repository source (pytsk3, the pfile filesystem cache,
the queue object, hashlib, the collection filter) are modelled through
their interfaces as used by collector.py; the directory structure exposed
by the tsk filesystem is modelled as a finite tree (`Flist`), and hashlib's
md5 hexdigest is an abstract function `md5 : String -> String` carried in
the `World` of external facts, so every theorem quantifies over it.
-/

namespace Plaso

/-- File type of a tsk metadata record: `pytsk3.TSK_FS_META_TYPE_DIR`,
`TSK_FS_META_TYPE_REG`, or anything else (device nodes, symlinks, ...). -/
inductive FType : Type where
  | dir : FType
  | reg : FType
  | other : FType
deriving DecidableEq

/-- A tsk `TSK_FS_META` record as read by collector.py: the inode address
`addr`, the type, and the eight timestamp attributes used by
`CalculateNTFSTimeHash` (source lines 299-327).  An attribute that is
absent on the Python object (so that `getattr(meta, name, 0)` yields the
default 0) is modelled as `none`. -/
structure TskMeta where
  addr : Nat := 0
  ftype : FType := FType.reg
  atime : Option Int := none
  atime_nano : Option Int := none
  crtime : Option Int := none
  crtime_nano : Option Int := none
  mtime : Option Int := none
  mtime_nano : Option Int := none
  ctime : Option Int := none
  ctime_nano : Option Int := none
deriving DecidableEq

/-- The attribute reads performed inside the `try` block of the entry loop
of `ParseImageDir` (source lines 238-254), in program order:
`f.info.name`, `tsk_name.flags`, `f.info.meta`, `tsk_name.name`,
`f.info.meta.addr`, `f.info.meta.type`.  Any of them may raise
`AttributeError`, which the loop catches at lines 255-258. -/
inductive ReadStage : Type where
  | atName : ReadStage
  | atFlags : ReadStage
  | atMeta : ReadStage
  | atNameStr : ReadStage
  | atAddr : ReadStage
  | atType : ReadStage
deriving DecidableEq

/-- One directory entry as seen through pytsk3.  `name = none` models a
falsy `f.info.name` struct, `unalloc` models
`tsk_name.flags == pytsk3.TSK_FS_NAME_FLAG_UNALLOC`, `meta = none` models a
falsy `f.info.meta`, and `readFail = some st` models the external library
raising `AttributeError` at attribute read `st` for this entry. -/
structure EntryData where
  name : Option String := none
  unalloc : Bool := false
  meta : Option TskMeta := none
  readFail : Option ReadStage := none
deriving DecidableEq

/-- The directory tree of one volume.  A directory's content is the list of
its entries; `Flist.cons e childFail child rest` is the entry `e` followed
by the remaining entries `rest`.  When `e` is classified as a directory,
`child` is the content of the directory it denotes and `childFail` is the
number of times `fs.fs.open_dir` raises `IOError` on it before an open
succeeds (the external tsk filesystem's failure behaviour; `0` = the first
open succeeds, `1` = the first open fails and the retry succeeds, `>= 2` =
both attempts of collector.py fail). -/
inductive Flist : Type where
  | nil : Flist
  | cons (entry : EntryData) (childFail : Nat) (child : Flist) (rest : Flist) : Flist
deriving DecidableEq

/-- Modelled from the spec: `plaso.lib.event.EventPathSpec` (the repository
module plaso/lib/event.py is not under src/).  Its fields are exactly the
ones assigned by collector.py (source lines 115-118 and 267-278) and named
by spec section 6 (serialized PathDescriptor wire form); absent fields are
omitted (`none`).  `ToProtoString` serializes exactly these fields, so an
enqueued serialization is modelled by the record itself. -/
structure EventPathSpec where
  type : String := ""
  file_path : String := ""
  container_path : Option String := none
  image_offset : Option Int := none
  image_inode : Option Nat := none
  vss_store_number : Option Int := none
deriving DecidableEq

/-- The observable side effects of a collector run, in program order:
`enqueue` / `enqueueRaw` are `self._queue.Queue(...)` calls (structured
specs from the image walk, opaque filter-produced strings from the targeted
collectors), `openMain`/`openVss` are `self._fscache.Open` calls with the
byte offset (and store number) used, `countVss` is the
`vss.GetVssStoreCount(self._image, offset)` call, `preCollect` is the
construction of `preprocess.TSKFileCollector(pre_obj, image, offset)`, and
`closeQueue` is `self._queue.Close()`. -/
inductive Event : Type where
  | enqueue (ps : EventPathSpec) : Event
  | enqueueRaw (s : String) : Event
  | openMain (offset : Int) : Event
  | openVss (offset : Int) (store_nr : Int) : Event
  | countVss (offset : Int) : Event
  | preCollect (offset : Int) : Event
  | closeQueue : Event
deriving DecidableEq

/-- A Python exception escaping the collector: `nameError s` is an
unhandled `NameError` on the undefined name `s` (e.g. `vss_numbers` at
source lines 186-188), `unboundLocal s` is an `UnboundLocalError` on the
local `s` (e.g. `name_str` in the handler at source lines 255-257). -/
inductive PyErr : Type where
  | nameError (s : String) : PyErr
  | unboundLocal (s : String) : PyErr
deriving DecidableEq

/-- Modelled from the spec: the handle returned by
`pfile.FilesystemCache.Open` (plaso/lib/pfile.py is not under src/).  Per
spec section 2 it carries the container path, the byte offset and the
snapshot store number; collector.py reads `fs.path`, `fs.offset` and
`fs.store_nr` (lines 269-275), testing `fs.store_nr >= 0` for the snapshot
case, so a main-volume handle carries the sentinel `-1` (spec section 3:
snapshotStoreNumber is "absent/sentinel for RawImage"). -/
structure FsHandle where
  path : String
  offset : Int
  store_nr : Int
deriving DecidableEq

/-- `self._hashlist`: a mapping from inode address to the list of
previously recorded timestamp-hash strings, as an association list in
insertion order. -/
def Hashlist : Type := List (Nat × List String)

instance : DecidableEq Hashlist :=
  inferInstanceAs (DecidableEq (List (Nat × List String)))

/-- `inode_addr in self._hashlist` lookup: the list recorded under an inode
address, if any. -/
def hlLookup : Hashlist → Nat → Option (List String)
  | [], _ => none
  | (a, l) :: rest, addr => if a = addr then some l else hlLookup rest addr

/-- The test at source lines 287-289: the inode address is present and the
hash value occurs in its recorded list. -/
def hlMember (hl : Hashlist) (addr : Nat) (hv : String) : Bool :=
  match hlLookup hl addr with
  | some l => l.contains hv
  | none => false

/-- `self._hashlist.setdefault(inode_addr, []).append(hash_value)` (source
line 291): append the hash value to the list recorded under the inode
address, creating the binding if absent. -/
def hlRecord : Hashlist → Nat → String → Hashlist
  | [], addr, hv => [(addr, [hv])]
  | (a, l) :: rest, addr, hv =>
      if a = addr then (a, l ++ [hv]) :: rest else (a, l) :: hlRecord rest addr hv

/-- `b.startswith('/')`, over the character list of `b`. -/
def startsWithSlash (s : String) : Bool :=
  match s.data with
  | [] => false
  | c :: _ => c = '/'

/-- `a.endswith('/')`, over the character list of `a`. -/
def endsWithSlash (s : String) : Bool :=
  match s.data.getLast? with
  | some c => c = '/'
  | none => false

/-- `os.path.join(a, b)` (posixpath, two arguments): an absolute second
component replaces the first; otherwise a separator is inserted unless the
first component is empty or already ends in one. -/
def osPathJoin (a b : String) : String :=
  if startsWithSlash b then b
  else if a = "" || endsWithSlash a then a ++ b
  else a ++ "/" ++ b

/-- `getattr(meta, field, 0)`: an absent timestamp attribute defaults
to 0 (source lines 311-325). -/
def tsField (o : Option Int) : Int := o.getD 0

/-- The exact string fed to the md5 object by `CalculateNTFSTimeHash`
(source lines 309-327): the concatenation of the four
`'label:{0}.{1}'.format(whole, nano)` pieces for atime, crtime, mtime and
ctime, in that order, with decimal integer representations. -/
def ntfsTimeString (m : TskMeta) : String :=
  "atime:" ++ toString (tsField m.atime) ++ "." ++ toString (tsField m.atime_nano) ++
  "crtime:" ++ toString (tsField m.crtime) ++ "." ++ toString (tsField m.crtime_nano) ++
  "mtime:" ++ toString (tsField m.mtime) ++ "." ++ toString (tsField m.mtime_nano) ++
  "ctime:" ++ toString (tsField m.ctime) ++ "." ++ toString (tsField m.ctime_nano)

/-- `SimpleImageCollector.CalculateNTFSTimeHash` (source lines 299-327):
the hexdigest of the md5 of `ntfsTimeString`.  hashlib is external, so the
md5 hexdigest is an abstract `md5 : String → String`. -/
def calculateNTFSTimeHash (md5 : String → String) (m : TskMeta) : String :=
  md5 (ntfsTimeString m)

/-- The outcome of the `try` block plus the skip-list and type tests for a
single directory entry (source lines 237-267): the walk either crashes
(the `except AttributeError` handler evaluated the unbound local
`name_str`), skips the entry (carrying the value `name_str` holds
afterwards), records a subdirectory, or reaches the regular-file branch. -/
inductive EntryAct : Type where
  | crash : EntryAct
  | skip (lastName : Option String) : EntryAct
  | foundDir (name_str : String) (inode_addr : Nat) : EntryAct
  | foundReg (name_str : String) (inode_addr : Nat) (meta : TskMeta) : EntryAct
deriving DecidableEq

/-- The `except AttributeError` handler (source lines 255-258): it logs
`name_str` and continues.  If `name_str` has no binding yet in this
`ParseImageDir` invocation, evaluating it raises `UnboundLocalError`;
otherwise the entry is skipped (the stale binding is kept). -/
def attrErrAct : Option String → EntryAct
  | none => EntryAct.crash
  | some s => EntryAct.skip (some s)

/-- The body of the entry loop of `ParseImageDir` up to classification
(source lines 237-267), for one entry `e`, given the binding `lastName`
that the local `name_str` holds from earlier iterations (or `none`).
The attribute reads happen in program order, interleaved with the falsy-,
unallocated- and skip-list tests exactly as in the source; an
`AttributeError` at stage `st` fires only if control reaches that read. -/
def readEntry (e : EntryData) (lastName : Option String) : EntryAct :=
  if e.readFail = some ReadStage.atName then attrErrAct lastName
  else
    match e.name with
    | none => EntryAct.skip lastName
    | some nstr =>
      if e.readFail = some ReadStage.atFlags then attrErrAct lastName
      else if e.unalloc then EntryAct.skip lastName
      else if e.readFail = some ReadStage.atMeta then attrErrAct lastName
      else
        match e.meta with
        | none => EntryAct.skip lastName
        | some m =>
          if e.readFail = some ReadStage.atNameStr then attrErrAct lastName
          else if e.readFail = some ReadStage.atAddr then attrErrAct (some nstr)
          else if e.readFail = some ReadStage.atType then attrErrAct (some nstr)
          else if nstr ∈ (["$OrphanFiles", ".", ".."] : List String) then
            EntryAct.skip (some nstr)
          else
            match m.ftype with
            | FType.dir => EntryAct.foundDir nstr m.addr
            | FType.reg => EntryAct.foundReg nstr m.addr m
            | FType.other => EntryAct.skip (some nstr)

/-- Whether an entry is appended to the `directories` worklist (source
line 266), together with the name and inode address it is recorded with.
Classification does not depend on the current `name_str` binding (that
binding only decides crash-versus-skip on an `AttributeError`), so it is
computed with `lastName = none`. -/
def entryDir (e : EntryData) : Option (String × Nat) :=
  match readEntry e none with
  | EntryAct.foundDir n a => some (n, a)
  | _ => none

/-- The regular-file branch of `ParseImageDir` (source lines 267-294):
build the `EventPathSpec` ('VSS' with store number if the handle's store
number is non-negative, else 'TSK'), then either enqueue directly (non-VSS
run) or apply timestamp-hash deduplication against `self._hashlist` (VSS
run).  Returns the emitted events and the updated hash list. -/
def processRegFile (md5 : String → String) (vssFlag : Bool) (h : FsHandle)
    (path name_str : String) (inode_addr : Nat) (m : TskMeta) (hl : Hashlist) :
    List Event × Hashlist :=
  let ps : EventPathSpec :=
    if h.store_nr ≥ 0 then
      { type := "VSS", vss_store_number := some h.store_nr,
        container_path := some h.path, image_offset := some h.offset,
        image_inode := some inode_addr,
        file_path := osPathJoin path name_str }
    else
      { type := "TSK",
        container_path := some h.path, image_offset := some h.offset,
        image_inode := some inode_addr,
        file_path := osPathJoin path name_str }
  if vssFlag then
    let hash_value := calculateNTFSTimeHash md5 m
    if hlMember hl inode_addr hash_value then (([] : List Event), hl)
    else ([Event.enqueue ps], hlRecord hl inode_addr hash_value)
  else ([Event.enqueue ps], hl)

/-- Result of classifying the entries of one open directory: enqueue events
in order, the updated hash list, the final `name_str` binding, and the
escaping exception if the `AttributeError` handler crashed. -/
structure ClassifyRes where
  events : List Event
  hl : Hashlist
  lastName : Option String
  err : Option PyErr
deriving DecidableEq

/-- The entry loop of `ParseImageDir` (source lines 236-294) over the
content of one open directory: skip-or-enqueue each entry in order,
threading the `name_str` binding and the hash list; an
`UnboundLocalError` in the handler aborts the loop.  Subdirectory
collection (line 266) is reflected separately by `entryDir`. -/
def classify (md5 : String → String) (vssFlag : Bool) (h : FsHandle) (path : String) :
    Flist → Option String → Hashlist → ClassifyRes
  | Flist.nil, lastName, hl => ⟨[], hl, lastName, none⟩
  | Flist.cons e _ _ rest, lastName, hl =>
    match readEntry e lastName with
    | EntryAct.crash => ⟨[], hl, lastName, some (PyErr.unboundLocal "name_str")⟩
    | EntryAct.skip ln => classify md5 vssFlag h path rest ln hl
    | EntryAct.foundDir n _ => classify md5 vssFlag h path rest (some n) hl
    | EntryAct.foundReg n addr m =>
      let pr := processRegFile md5 vssFlag h path n addr m hl
      let c := classify md5 vssFlag h path rest (some n) pr.2
      ⟨pr.1 ++ c.events, c.hl, c.lastName, c.err⟩

/-- Result of a (sub)walk: events in order, final hash list, escaping
exception if any (events before the exception have already happened). -/
structure WRes where
  events : List Event
  hl : Hashlist
  err : Option PyErr
deriving DecidableEq

/-- The recursive-descent phase of `ParseImageDir` (source lines 296-297):
after the current directory's entries have all been classified, recurse
into each recorded subdirectory in order.  Each recursive
`self.ParseImageDir(fs, inode_addr, path)` call is inlined here: it opens
the subdirectory (retrying exactly once on `IOError`, so the body runs iff
the subdirectory's failure count is at most 1, and a double failure
abandons that subtree with no events and no exception), classifies its
entries, and descends below it, threading the hash list throughout.  An
escaping exception stops the remaining siblings. -/
def descend (md5 : String → String) (vssFlag : Bool) (h : FsHandle) :
    Flist → String → Hashlist → WRes
  | Flist.nil, _, hl => ⟨[], hl, none⟩
  | Flist.cons e cf child rest, path, hl =>
    match entryDir e with
    | none => descend md5 vssFlag h rest path hl
    | some (n, _) =>
      let cpath := osPathJoin path n
      let r : WRes :=
        if cf ≤ 1 then
          let c := classify md5 vssFlag h cpath child none hl
          match c.err with
          | some er => ⟨c.events, c.hl, some er⟩
          | none =>
            let r2 := descend md5 vssFlag h child cpath c.hl
            ⟨c.events ++ r2.events, r2.hl, r2.err⟩
        else ⟨[], hl, none⟩
      match r.err with
      | some er => ⟨r.events, r.hl, some er⟩
      | none =>
        let r3 := descend md5 vssFlag h rest path r.hl
        ⟨r.events ++ r3.events, r3.hl, r3.err⟩

/-- The body of `ParseImageDir` after a successful directory open: classify
the entries (lines 236-294), then descend into the recorded subdirectories
(lines 296-297). -/
def openedWalk (md5 : String → String) (vssFlag : Bool) (h : FsHandle)
    (content : Flist) (path : String) (hl : Hashlist) : WRes :=
  let c := classify md5 vssFlag h path content none hl
  match c.err with
  | some er => ⟨c.events, c.hl, some er⟩
  | none =>
    let r := descend md5 vssFlag h content path c.hl
    ⟨c.events ++ r.events, r.hl, r.err⟩

/-- `SimpleImageCollector.ParseImageDir` (source lines 212-297) for a
directory whose open fails `failCount` times before succeeding.  The
source implements the single retry by one recursive call with
`retry=True` (lines 226-234); that recursion is unrolled here: attempt
number `retry ? 1 : 0` succeeds iff `failCount` ≤ it, a first failure with
`retry=False` redoes the directory with `retry=True`, and a failure with
`retry=True` returns with nothing done and no exception.  `cur_inode` is
the inode the directory was opened by (used by the source only in log
messages). -/
def parseImageDir (md5 : String → String) (vssFlag : Bool) (h : FsHandle)
    (failCount : Nat) (content : Flist) (cur_inode : Nat) (path : String)
    (retry : Bool) (hl : Hashlist) : WRes :=
  if failCount ≤ (if retry then 1 else 0) then
    openedWalk md5 vssFlag h content path hl
  else if retry then ⟨[], hl, none⟩
  else if failCount ≤ 1 then
    openedWalk md5 vssFlag h content path hl
  else ⟨[], hl, none⟩

/-- One volume as exposed by the external filesystem library: the root
inode number (`fs.fs.info.root_inum`), the number of times opening the
root directory fails, and the root directory content. -/
structure Volume where
  root_inum : Nat := 0
  rootFail : Nat := 0
  root : Flist := Flist.nil
deriving DecidableEq

/-- The external world a collector run interacts with: the md5 hexdigest
function (hashlib), the main volume at the effective offset (`none` models
`pfile.FilesystemCache.Open` raising `errors.UnableToOpenFilesystem`), the
snapshot store count returned by `vss.GetVssStoreCount`, the per-store
snapshot volumes, and the path-spec strings the external collection filter
produces for the main volume (targeted collectors). -/
structure World where
  md5 : String → String
  main : Option Volume := none
  vssCount : Nat := 0
  vssVol : Int → Option Volume := fun _ => none
  filterMain : List String := []

/-- The constructor arguments of `SimpleImageCollector` (source lines
126-147) and, through `TargetedImageCollector.__init__` (lines 357-375),
of the targeted variant: image path, sector offset, byte offset, VSS flag
and optional explicit store list. -/
structure Config where
  image : String := ""
  offset : Int := 0
  offset_bytes : Int := 0
  parse_vss : Bool := false
  vss_stores : Option (List Int) := none

/-- `SimpleImageCollector.SECTOR_SIZE` (source line 124). -/
def SECTOR_SIZE : Int := 512

/-- Python `a or b` on integers: `a` unless it is falsy (zero). -/
def pyIntOr (a b : Int) : Int := if a ≠ 0 then a else b

/-- `offset = self._offset_bytes or self._offset * self.SECTOR_SIZE`
(source lines 168 and 383): the effective byte offset of a run. -/
def resolvedOffset (cfg : Config) : Int :=
  pyIntOr cfg.offset_bytes (cfg.offset * SECTOR_SIZE)

/-- Python truthiness of the `vss_stores` argument (`if self._vss_stores:`,
source line 157): `None` and the empty list are falsy. -/
def listTruthy : Option (List Int) → Bool
  | none => false
  | some [] => false
  | some (_ :: _) => true

/-- Python 2 `range(a, b)` over integers. -/
def pyRange (a b : Int) : List Int :=
  (List.range (b - a).toNat).map (fun i : Nat => a + (i : Int))

/-- `SimpleImageCollector.GetVssStores` (source lines 149-164): `[]`
without consulting the store count when VSS is off; otherwise query
`vss.GetVssStoreCount` (recorded as a `countVss` event) and keep either
the configured store numbers `nr` with `nr > 0 and nr <= vss_numbers`, in
configured order, or — when no truthy list was configured —
`range(0, vss_numbers)`. -/
def getVssStores (w : World) (cfg : Config) (offset : Int) : List Int × List Event :=
  if cfg.parse_vss = false then ([], [])
  else
    let vss_numbers : Int := (w.vssCount : Int)
    let stores : List Int :=
      if listTruthy cfg.vss_stores then
        (cfg.vss_stores.getD []).filter
          (fun nr => decide (0 < nr) && decide (nr ≤ vss_numbers))
      else pyRange 0 vss_numbers
    (stores, [Event.countVss offset])

/-- The result of one `Collect()` or `Run()` call: the event trace and the
escaping exception, if any. -/
structure CollectRes where
  events : List Event
  err : Option PyErr
deriving DecidableEq

/-- `SimpleImageCollector.Collect` (source lines 166-191): resolve the
byte offset, open the main volume (`openMain` event; on
`UnableToOpenFilesystem` log and return), walk it from its root inode at
path `os.path.sep` with a store-number sentinel of `-1` and a fresh hash
list, then iterate `GetVssStores(offset)`.  The loop body's
`logging.info` call (lines 186-188) evaluates the undefined name
`vss_numbers` (a local of `GetVssStores`, not of `Collect`), so the first
iteration raises `NameError` before `CollectFromVss` is ever reached. -/
def collect (w : World) (cfg : Config) : CollectRes :=
  let offset := resolvedOffset cfg
  match w.main with
  | none => ⟨[Event.openMain offset], none⟩
  | some vol =>
    let fsh : FsHandle := ⟨cfg.image, offset, -1⟩
    let r := parseImageDir w.md5 cfg.parse_vss fsh vol.rootFail vol.root
      vol.root_inum "/" false []
    match r.err with
    | some e => ⟨Event.openMain offset :: r.events, some e⟩
    | none =>
      let s := getVssStores w cfg offset
      match s.1 with
      | [] => ⟨Event.openMain offset :: (r.events ++ s.2), none⟩
      | _ :: _ =>
        ⟨Event.openMain offset :: (r.events ++ s.2),
          some (PyErr.nameError "vss_numbers")⟩

/-- `SimpleImageCollector.CollectFromVss` (source lines 193-210): open the
given snapshot store (`openVss` event; on `UnableToOpenFilesystem` log and
skip the store), and walk it from its root inode at path '/'.  (Unreachable
from `collect`: the store loop raises `NameError` first.) -/
def collectFromVss (w : World) (vssFlag : Bool) (image_path : String)
    (store_nr : Int) (offset : Int) (hl : Hashlist) : WRes :=
  match w.vssVol store_nr with
  | none => ⟨[Event.openVss offset store_nr], hl, none⟩
  | some vol =>
    let r := parseImageDir w.md5 vssFlag ⟨image_path, offset, store_nr⟩
      vol.rootFail vol.root vol.root_inum "/" false hl
    ⟨Event.openVss offset store_nr :: r.events, r.hl, r.err⟩

/-- `Collector.Run` (source lines 54-57) applied to the outcome of a
`Collect()` call: `self.Collect()` then `self.Close()` in sequence, with
no exception handling, so `Close()` (one `closeQueue` event) runs exactly
when `Collect()` returned without raising. -/
def runWith (c : CollectRes) : CollectRes :=
  match c.err with
  | some e => ⟨c.events, some e⟩
  | none => ⟨c.events ++ [Event.closeQueue], none⟩

/-- `Run()` of a `SimpleImageCollector`. -/
def run (w : World) (cfg : Config) : CollectRes := runWith (collect w cfg)

/-- `TargetedImageCollector.Collect` (source lines 379-405): resolve the
byte offset, construct the pre-collector (`preCollect` event), enqueue
every path-spec string the external collection filter produces for the
main volume, and, when VSS is requested, iterate `GetVssStores(offset)` —
whose loop body evaluates the same undefined name `vss_numbers` (lines
394-397) and so raises `NameError` on its first iteration.  The
`finally` clause only logs, so the exception escapes. -/
def targetedCollect (w : World) (cfg : Config) : CollectRes :=
  let offset := resolvedOffset cfg
  let evs := Event.preCollect offset :: w.filterMain.map Event.enqueueRaw
  if cfg.parse_vss then
    let s := getVssStores w cfg offset
    match s.1 with
    | [] => ⟨evs ++ s.2, none⟩
    | _ :: _ => ⟨evs ++ s.2, some (PyErr.nameError "vss_numbers")⟩
  else ⟨evs, none⟩

/-- `Run()` of a `TargetedImageCollector`. -/
def targetedRun (w : World) (cfg : Config) : CollectRes :=
  runWith (targetedCollect w cfg)

/-- Whether an event is an `fscache.Open` of a snapshot store. -/
def Event.isOpenVss : Event → Bool
  | Event.openVss _ _ => true
  | _ => false

/-- The events a directory walk can emit: only enqueues of path specs whose
`type` tag is determined by the handle's store number. -/
def walkEvent (h : FsHandle) : Event → Bool
  | Event.enqueue ps => ps.type == (if h.store_nr ≥ 0 then "VSS" else "TSK")
  | _ => false

/-- The `file_path` fields of the structured path specs enqueued in a
trace, in order. -/
def enqueuedPaths (evs : List Event) : List String :=
  evs.filterMap (fun ev =>
    match ev with
    | Event.enqueue ps => some ps.file_path
    | _ => none)

/-- Every event that mentions a byte offset mentions the given one. -/
def eventOffsetOk (off : Int) : Event → Bool
  | Event.openMain o => o == off
  | Event.openVss o _ => o == off
  | Event.countVss o => o == off
  | Event.preCollect o => o == off
  | _ => true

/-- The events `collect` can emit: walk enqueues for the main-volume
handle, the main-volume open, and the snapshot-count query, the latter two
at the resolved offset. -/
def collectEvent (cfg : Config) : Event → Bool := fun ev =>
  walkEvent ⟨cfg.image, resolvedOffset cfg, -1⟩ ev ||
  ev == Event.openMain (resolvedOffset cfg) ||
  ev == Event.countVss (resolvedOffset cfg)

/-- The events `targetedCollect` can emit. -/
def targetedEvent (cfg : Config) : Event → Bool := fun ev =>
  (match ev with
   | Event.enqueueRaw _ => true
   | _ => false) ||
  ev == Event.preCollect (resolvedOffset cfg) ||
  ev == Event.countVss (resolvedOffset cfg)

lemma all_implies {l : List Event} {p q : Event → Bool} (hl : l.all p = true)
    (hpq : ∀ x, p x = true → q x = true) : l.all q = true := by
  rw [List.all_eq_true] at hl ⊢
  exact fun x hx => hpq x (hl x hx)

lemma count_zero_of_all {l : List Event} {p : Event → Bool} {a : Event}
    (hl : l.all p = true) (ha : p a = false) : l.count a = 0 := by
  rw [List.count_eq_zero]
  intro hmem
  rw [List.all_eq_true] at hl
  have hpa := hl a hmem
  rw [ha] at hpa
  exact Bool.noConfusion hpa

lemma processRegFile_events_all (md5 : String → String) (v : Bool) (h : FsHandle)
    (path n : String) (addr : Nat) (m : TskMeta) (hl : Hashlist) :
    ((processRegFile md5 v h path n addr m hl).1).all (walkEvent h) = true := by
  simp only [processRegFile]
  split_ifs <;> simp_all [walkEvent] <;> rw [if_neg (by omega)]

lemma classify_events_all (md5 : String → String) (v : Bool) (h : FsHandle)
    (path : String) :
    ∀ (content : Flist) (ln : Option String) (hl : Hashlist),
      ((classify md5 v h path content ln hl).events).all (walkEvent h) = true := by
  intro content
  induction content with
  | nil => intro ln hl; simp [classify]
  | cons e cf child rest ihc ihr =>
    intro ln hl
    rw [classify]
    cases hre : readEntry e ln with
    | crash => simp
    | skip ln' => exact ihr ln' hl
    | foundDir n a => exact ihr (some n) hl
    | foundReg n a m =>
      simp only [List.all_append, Bool.and_eq_true]
      exact ⟨processRegFile_events_all md5 v h path n a m hl, ihr (some n) _⟩

/-- Unfolding equation for `descend` on a non-empty entry list, with the
inlined subdirectory walk expressed through `openedWalk`. -/
lemma descend_cons (md5 : String → String) (v : Bool) (h : FsHandle)
    (e : EntryData) (cf : Nat) (child rest : Flist) (path : String) (hl : Hashlist) :
    descend md5 v h (Flist.cons e cf child rest) path hl =
      match entryDir e with
      | none => descend md5 v h rest path hl
      | some (n, _) =>
        let r : WRes :=
          if cf ≤ 1 then openedWalk md5 v h child (osPathJoin path n) hl
          else ⟨[], hl, none⟩
        match r.err with
        | some er => ⟨r.events, r.hl, some er⟩
        | none =>
          let r3 := descend md5 v h rest path r.hl
          ⟨r.events ++ r3.events, r3.hl, r3.err⟩ := rfl

lemma openedWalk_events_all_of (md5 : String → String) (v : Bool) (h : FsHandle)
    (content : Flist) (path : String) (hl : Hashlist)
    (hdes : ∀ (p : String) (l : Hashlist),
      ((descend md5 v h content p l).events).all (walkEvent h) = true) :
    ((openedWalk md5 v h content path hl).events).all (walkEvent h) = true := by
  simp only [openedWalk]
  split
  · exact classify_events_all md5 v h path content none hl
  · simp only [List.all_append, Bool.and_eq_true]
    exact ⟨classify_events_all md5 v h path content none hl, hdes path _⟩

lemma descend_events_all (md5 : String → String) (v : Bool) (h : FsHandle) :
    ∀ (content : Flist) (path : String) (hl : Hashlist),
      ((descend md5 v h content path hl).events).all (walkEvent h) = true := by
  intro content
  induction content with
  | nil => intro path hl; simp [descend]
  | cons e cf child rest ihc ihr =>
    intro path hl
    rw [descend_cons]
    cases hd : entryDir e with
    | none => exact ihr path hl
    | some p =>
      obtain ⟨n, a⟩ := p
      have hr : ∀ (r : WRes),
          (r.events).all (walkEvent h) = true →
          ((match r.err with
            | some er => (⟨r.events, r.hl, some er⟩ : WRes)
            | none =>
              let r3 := descend md5 v h rest path r.hl
              (⟨r.events ++ r3.events, r3.hl, r3.err⟩ : WRes)) : WRes).events.all
            (walkEvent h) = true := by
        intro r hrev
        cases r.err with
        | some er => simpa using hrev
        | none =>
          simp only [List.all_append, Bool.and_eq_true]
          exact ⟨hrev, ihr path _⟩
      have hrev : ((if cf ≤ 1 then
            openedWalk md5 v h child (osPathJoin path n) hl
          else (⟨[], hl, none⟩ : WRes)).events).all (walkEvent h) = true := by
        split
        · exact openedWalk_events_all_of md5 v h child (osPathJoin path n) hl ihc
        · simp
      exact hr _ hrev

lemma openedWalk_events_all (md5 : String → String) (v : Bool) (h : FsHandle)
    (content : Flist) (path : String) (hl : Hashlist) :
    ((openedWalk md5 v h content path hl).events).all (walkEvent h) = true :=
  openedWalk_events_all_of md5 v h content path hl
    (fun p l => descend_events_all md5 v h content p l)

lemma parseImageDir_events_all (md5 : String → String) (v : Bool) (h : FsHandle)
    (fc : Nat) (content : Flist) (cur_inode : Nat) (path : String)
    (retry : Bool) (hl : Hashlist) :
    ((parseImageDir md5 v h fc content cur_inode path retry hl).events).all
      (walkEvent h) = true := by
  unfold parseImageDir
  split_ifs <;> first
    | exact openedWalk_events_all md5 v h content path hl
    | simp

lemma getVssStores_snd_all (w : World) (cfg : Config) (p : Event → Bool)
    (hp : p (Event.countVss (resolvedOffset cfg)) = true) :
    ((getVssStores w cfg (resolvedOffset cfg)).2).all p = true := by
  simp only [getVssStores]
  split
  · simp
  · simp [hp]

lemma collect_events_all (w : World) (cfg : Config) :
    ((collect w cfg).events).all (collectEvent cfg) = true := by
  have hopen : collectEvent cfg (Event.openMain (resolvedOffset cfg)) = true := by
    simp [collectEvent]
  have hsnd : ((getVssStores w cfg (resolvedOffset cfg)).2).all
      (collectEvent cfg) = true :=
    getVssStores_snd_all w cfg _ (by simp [collectEvent])
  simp only [collect]
  split
  · simp [collectEvent]
  · rename_i vol hm
    have hwalk' : ((parseImageDir w.md5 cfg.parse_vss
        ⟨cfg.image, resolvedOffset cfg, -1⟩ vol.rootFail vol.root vol.root_inum
        "/" false []).events).all (collectEvent cfg) = true :=
      all_implies
        (parseImageDir_events_all w.md5 cfg.parse_vss
          ⟨cfg.image, resolvedOffset cfg, -1⟩ vol.rootFail vol.root vol.root_inum
          "/" false [])
        (fun x hx => by simp [collectEvent, hx])
    split
    · simp only [List.all_cons, Bool.and_eq_true]
      exact ⟨hopen, hwalk'⟩
    · split <;>
      · simp only [List.all_cons, List.all_append, Bool.and_eq_true]
        exact ⟨hopen, hwalk', hsnd⟩

lemma targetedCollect_events_all (w : World) (cfg : Config) :
    ((targetedCollect w cfg).events).all (targetedEvent cfg) = true := by
  have hmain : (Event.preCollect (resolvedOffset cfg) ::
      w.filterMain.map Event.enqueueRaw).all (targetedEvent cfg) = true := by
    simp only [List.all_cons, Bool.and_eq_true]
    constructor
    · simp [targetedEvent]
    · rw [List.all_eq_true]
      intro x hx
      rw [List.mem_map] at hx
      obtain ⟨s, _, rfl⟩ := hx
      simp [targetedEvent]
  have hsnd : ((getVssStores w cfg (resolvedOffset cfg)).2).all
      (targetedEvent cfg) = true :=
    getVssStores_snd_all w cfg _ (by simp [targetedEvent])
  simp only [targetedCollect]
  split
  · split <;>
    · simp only [List.all_append, Bool.and_eq_true]
      exact ⟨hmain, hsnd⟩
  · exact hmain

/-- An event that is not the enqueue of a snapshot-sourced ('VSS'-typed)
path spec. -/
def noVssDescriptor : Event → Bool
  | Event.enqueue ps => !(ps.type == "VSS")
  | _ => true

lemma collectEvent_closeQueue (cfg : Config) :
    collectEvent cfg Event.closeQueue = false := rfl

lemma collect_count_closeQueue (w : World) (cfg : Config) :
    (collect w cfg).events.count Event.closeQueue = 0 :=
  count_zero_of_all (collect_events_all w cfg) (collectEvent_closeQueue cfg)

lemma collect_no_openVss (w : World) (cfg : Config) :
    ((collect w cfg).events).all (fun ev => !(Event.isOpenVss ev)) = true :=
  all_implies (collect_events_all w cfg) (fun x hx => by
    cases x <;> simp_all [collectEvent, walkEvent, Event.isOpenVss])

lemma collect_no_vss_descriptor (w : World) (cfg : Config) :
    ((collect w cfg).events).all noVssDescriptor = true :=
  all_implies (collect_events_all w cfg) (fun x hx => by
    cases x <;> simp_all [collectEvent, walkEvent, noVssDescriptor])

/- ---------------------------------------------------------------- C1 -/

/-- C1, as stated, is false at this input: a `SimpleImageCollector` with
`parse_vss=True` over an image with one snapshot store.  `Collect()`
raises (the `vss_numbers` NameError), `Run()` has no try/finally around
`self.Collect()` (source lines 54-57), so the queue is never closed —
the claim demanded exactly one end-of-stream signal even when `Collect()`
raises. -/
def c1World : World :=
  { md5 := id, main := some { root := Flist.nil }, vssCount := 1 }

/-- The configuration of the C1 counterexample run. -/
def c1Cfg : Config := { parse_vss := true }

/-- C1 counterexample: this run of `Run()` ends with an escaping exception
and the queue receives no end-of-stream signal at all, refuting "the queue
receives its end-of-stream signal exactly once per run even when
`Collect()` raises an exception". -/
theorem c1_close_counterexample :
    (run c1World c1Cfg).events.count Event.closeQueue = 0 ∧
    (run c1World c1Cfg).err.isSome = true := by
  constructor
  · decide
  · decide

/-- C1 (amended): for every collector run, `Run()` calls `Collect()` and
then closes the output queue; when `Collect()` returns (normally or
early) the queue receives its end-of-stream signal exactly once, but when
`Collect()` raises, the exception propagates out of `Run()` and the queue
is never closed. -/
theorem c1_run_close_amended (w : World) (cfg : Config) :
    ((collect w cfg).err = none →
      (run w cfg).events.count Event.closeQueue = 1 ∧ (run w cfg).err = none) ∧
    (∀ e : PyErr, (collect w cfg).err = some e →
      (run w cfg).events.count Event.closeQueue = 0 ∧ (run w cfg).err = some e) := by
  have h0 := collect_count_closeQueue w cfg
  constructor
  · intro hnone
    unfold run runWith
    rw [hnone]
    constructor
    · simp [List.count_append, h0]
    · rfl
  · intro e hsome
    unfold run runWith
    rw [hsome]
    exact ⟨h0, rfl⟩

/-- The external world of the C1 witness run (`Collect()` returns
normally: the main volume cannot be opened, which is logged and
swallowed). -/
def c1WitnessWorld : World := { md5 := id }

/-- C1 witness: a run whose `Collect()` returns normally closes the queue
exactly once. -/
theorem c1_run_close_witness :
    (run c1WitnessWorld {}).events.count Event.closeQueue = 1 ∧
    (run c1WitnessWorld {}).err = none :=
  (c1_run_close_amended c1WitnessWorld {}).1 (by decide)

/- ---------------------------------------------------------------- C2 -/

/-- The external world of the C2 counterexample: `parse_vss=True`, one
snapshot store available, but the main volume cannot be opened
(`UnableToOpenFilesystem`). -/
def c2World : World := { md5 := id, vssCount := 1 }

/-- The configuration of the C2 counterexample run. -/
def c2Cfg : Config := { parse_vss := true }

/-- C2 counterexample: a `SimpleImageCollector` with `parse_vss=True` for
which `GetVssStores` returns store 0, yet `Collect()` never evaluates
`vss_numbers` and `Run()` does close the queue — because the main-volume
open failed and `Collect()` returned early (source lines 179-181) before
reaching the store loop.  This refutes the claim's universal "for every
SimpleImageCollector configured with parse_vss=True for which GetVssStores
returns at least one store number". -/
theorem c2_counterexample :
    (getVssStores c2World c2Cfg (resolvedOffset c2Cfg)).1 = [0] ∧
    (collect c2World c2Cfg).err = none ∧
    (run c2World c2Cfg).events.count Event.closeQueue = 1 := by
  refine ⟨by decide, by decide, by decide⟩

/-- C2 (amended): provided the main volume opens and its walk completes
without an exception of its own, every `SimpleImageCollector` with
`parse_vss=True` whose `GetVssStores` returns at least one store raises an
unhandled `NameError` on the undefined name `vss_numbers` before opening
any snapshot store; no snapshot-sourced ('VSS'-typed) descriptor is ever
enqueued, `Run()` terminates without closing the queue, and
`TargetedImageCollector.Collect` raises the same `NameError` in its store
loop. -/
theorem c2_vss_name_error_amended (w : World) (cfg : Config) (vol : Volume)
    (hv : cfg.parse_vss = true)
    (hm : w.main = some vol)
    (hwalk : (parseImageDir w.md5 cfg.parse_vss
        ⟨cfg.image, resolvedOffset cfg, -1⟩ vol.rootFail vol.root vol.root_inum
        "/" false []).err = none)
    (hs : (getVssStores w cfg (resolvedOffset cfg)).1 ≠ []) :
    (collect w cfg).err = some (PyErr.nameError "vss_numbers") ∧
    ((collect w cfg).events).all (fun ev => !(Event.isOpenVss ev)) = true ∧
    ((collect w cfg).events).all noVssDescriptor = true ∧
    (run w cfg).events.count Event.closeQueue = 0 ∧
    (targetedCollect w cfg).err = some (PyErr.nameError "vss_numbers") := by
  have herr : (collect w cfg).err = some (PyErr.nameError "vss_numbers") := by
    simp only [collect, hm, hwalk]
    cases hst : (getVssStores w cfg (resolvedOffset cfg)).1 with
    | nil => exact absurd hst hs
    | cons a l => simp [hst]
  refine ⟨herr, collect_no_openVss w cfg, collect_no_vss_descriptor w cfg, ?_, ?_⟩
  · unfold run runWith
    rw [herr]
    exact collect_count_closeQueue w cfg
  · simp only [targetedCollect, hv]
    cases hst : (getVssStores w cfg (resolvedOffset cfg)).1 with
    | nil => exact absurd hst hs
    | cons a l => simp [hst]

/-- The external world of the C2 witness run: one snapshot store, an
openable (empty) main volume. -/
def c2WitnessWorld : World :=
  { md5 := id, main := some { root := Flist.nil }, vssCount := 1 }

/-- C2 witness at a concrete collector: the amended theorem applied to a
one-store image whose main volume is empty and opens successfully. -/
theorem c2_vss_name_error_witness :
    (collect c2WitnessWorld c2Cfg).err = some (PyErr.nameError "vss_numbers") ∧
    ((collect c2WitnessWorld c2Cfg).events).all (fun ev => !(Event.isOpenVss ev)) = true ∧
    ((collect c2WitnessWorld c2Cfg).events).all noVssDescriptor = true ∧
    (run c2WitnessWorld c2Cfg).events.count Event.closeQueue = 0 ∧
    (targetedCollect c2WitnessWorld c2Cfg).err = some (PyErr.nameError "vss_numbers") :=
  c2_vss_name_error_amended c2WitnessWorld c2Cfg { root := Flist.nil }
    (by decide) rfl (by decide) (by decide)

/- ---------------------------------------------------------------- C5 -/

lemma mem_pyRange_zero (n : Nat) (nr : Int) :
    nr ∈ pyRange 0 (n : Int) ↔ (0 ≤ nr ∧ nr < (n : Int)) := by
  unfold pyRange
  simp only [List.mem_map, List.mem_range]
  constructor
  · rintro ⟨i, hi, rfl⟩
    omega
  · rintro ⟨h0, hn⟩
    refine ⟨nr.toNat, by omega, by omega⟩

/-- The external world of the C5 counterexample: one snapshot store. -/
def c5World : World := { md5 := id, vssCount := 1 }

/-- The configuration of the C5 counterexample: an explicitly configured
*empty* store list. -/
def c5Cfg : Config := { parse_vss := true, vss_stores := some [] }

/-- C5 counterexample: with an explicitly configured store list `[]` and
N=1, the claim demands that exactly the requested numbers lying in [1, 1]
— i.e. no store — be selected, but `if self._vss_stores:` (source line
157) treats the empty list as "no list configured" and the code selects
`range(0, 1) = [0]`. -/
theorem c5_counterexample :
    (getVssStores c5World c5Cfg 0).1 = [0] ∧
    (getVssStores c5World c5Cfg 0).1 ≠
      (([] : List Int).filter
        (fun nr => decide (0 < nr) && decide (nr ≤ (1 : Int)))) := by
  refine ⟨by decide, by decide⟩

/-- C5 (amended): when snapshot collection is disabled no store is
selected; when a *non-empty* explicit store-number list is configured,
exactly the requested numbers lying in [1, N] are selected (in configured
order); otherwise — including the explicitly configured empty list, which
is falsy in Python — every store in [0, N) is selected. -/
theorem c5_store_selection_amended (w : World) (cfg : Config) (offset : Int) :
    (cfg.parse_vss = false → (getVssStores w cfg offset).1 = []) ∧
    (∀ l : List Int, cfg.parse_vss = true → cfg.vss_stores = some l → l ≠ [] →
      ((getVssStores w cfg offset).1 =
        l.filter (fun nr => decide (0 < nr) && decide (nr ≤ (w.vssCount : Int))) ∧
       (∀ nr : Int, nr ∈ (getVssStores w cfg offset).1 ↔
         (nr ∈ l ∧ 1 ≤ nr ∧ nr ≤ (w.vssCount : Int))))) ∧
    (cfg.parse_vss = true → listTruthy cfg.vss_stores = false →
      ((getVssStores w cfg offset).1 = pyRange 0 (w.vssCount : Int) ∧
       (∀ nr : Int, nr ∈ (getVssStores w cfg offset).1 ↔
         (0 ≤ nr ∧ nr < (w.vssCount : Int))))) := by
  refine ⟨?_, ?_, ?_⟩
  · intro hv
    simp [getVssStores, hv]
  · intro l hv hsome hne
    have htruthy : listTruthy (some l) = true := by
      cases l with
      | nil => exact absurd rfl hne
      | cons a t => rfl
    have heq : (getVssStores w cfg offset).1 =
        l.filter (fun nr => decide (0 < nr) && decide (nr ≤ (w.vssCount : Int))) := by
      simp [getVssStores, hv, hsome, htruthy]
    refine ⟨heq, fun nr => ?_⟩
    rw [heq, List.mem_filter]
    simp only [Bool.and_eq_true, decide_eq_true_eq]
    constructor
    · rintro ⟨hmem, h1, h2⟩
      exact ⟨hmem, by omega, h2⟩
    · rintro ⟨hmem, h1, h2⟩
      exact ⟨hmem, by omega, h2⟩
  · intro hv hfalse
    have heq : (getVssStores w cfg offset).1 = pyRange 0 (w.vssCount : Int) := by
      simp [getVssStores, hv, hfalse]
    exact ⟨heq, fun nr => by rw [heq]; exact mem_pyRange_zero w.vssCount nr⟩

/-- The external world of the C5 witness: three snapshot stores. -/
def c5WitnessWorld : World := { md5 := id, vssCount := 3 }

/-- The configuration of the C5 witness: requested stores {0, 2, 5}. -/
def c5WitnessCfg : Config := { parse_vss := true, vss_stores := some [0, 2, 5] }

/-- C5 witness: the spec's own example — with N=3 and requested stores
{0, 2, 5}, only store 2 is selected; and with VSS off nothing is. -/
theorem c5_store_selection_witness :
    (getVssStores c5WitnessWorld c5WitnessCfg 0).1 = [2] ∧
    (getVssStores c5WitnessWorld { c5WitnessCfg with parse_vss := false } 0).1 = [] := by
  constructor
  · have h := ((c5_store_selection_amended c5WitnessWorld c5WitnessCfg 0).2.1
      [0, 2, 5] (by decide) rfl (by decide)).1
    rw [h]
    decide
  · exact (c5_store_selection_amended c5WitnessWorld
      { c5WitnessCfg with parse_vss := false } 0).1 (by decide)

/- ---------------------------------------------------------------- C9 -/

/-- C9: the effective byte offset of an image collector run is the
configured byte offset when one is given (non-zero), and otherwise the
configured sector offset times the fixed sector size 512; and every
offset-bearing external interaction of both `SimpleImageCollector.Collect`
and `TargetedImageCollector.Collect` (volume open, snapshot-count query,
snapshot open, pre-collector construction) uses exactly that offset. -/
theorem c9_offset_resolution (w : World) (cfg : Config) :
    (cfg.offset_bytes ≠ 0 → resolvedOffset cfg = cfg.offset_bytes) ∧
    (cfg.offset_bytes = 0 → resolvedOffset cfg = cfg.offset * SECTOR_SIZE) ∧
    ((collect w cfg).events).all (eventOffsetOk (resolvedOffset cfg)) = true ∧
    ((targetedCollect w cfg).events).all (eventOffsetOk (resolvedOffset cfg)) = true := by
  refine ⟨?_, ?_, ?_, ?_⟩
  · intro hb
    simp [resolvedOffset, pyIntOr, hb]
  · intro hb
    simp [resolvedOffset, pyIntOr, hb]
  · exact all_implies (collect_events_all w cfg) (fun x hx => by
      cases x <;> simp_all [collectEvent, walkEvent, eventOffsetOk])
  · exact all_implies (targetedCollect_events_all w cfg) (fun x hx => by
      cases x <;> simp_all [targetedEvent, eventOffsetOk])

/- ------------------------------------------------- dedup helpers ----- -/

lemma processRegFile_dup (md5 : String → String) (h : FsHandle)
    (path n : String) (addr : Nat) (m : TskMeta) (hl : Hashlist)
    (hmem : hlMember hl addr (calculateNTFSTimeHash md5 m) = true) :
    processRegFile md5 true h path n addr m hl = ([], hl) := by
  simp [processRegFile, hmem]

lemma processRegFile_true_new (md5 : String → String) (h : FsHandle)
    (path n : String) (addr : Nat) (m : TskMeta) (hl : Hashlist)
    (hmem : hlMember hl addr (calculateNTFSTimeHash md5 m) = false) :
    (processRegFile md5 true h path n addr m hl).2 =
      hlRecord hl addr (calculateNTFSTimeHash md5 m) ∧
    enqueuedPaths (processRegFile md5 true h path n addr m hl).1 =
      [osPathJoin path n] := by
  simp only [processRegFile]
  constructor <;> split_ifs <;> simp_all [enqueuedPaths]

lemma processRegFile_false_eval (md5 : String → String) (h : FsHandle)
    (path n : String) (addr : Nat) (m : TskMeta) (hl : Hashlist) :
    (processRegFile md5 false h path n addr m hl).2 = hl ∧
    enqueuedPaths (processRegFile md5 false h path n addr m hl).1 =
      [osPathJoin path n] := by
  simp only [processRegFile]
  constructor <;> split_ifs <;> simp_all [enqueuedPaths]

/-- The external world of the C9 witness. -/
def c9WitnessWorld : World := { md5 := id, main := some { root := Flist.nil } }

/-- The sector-offset configuration of the C9 witness. -/
def c9CfgSector : Config := { offset := 3 }

/-- The byte-offset configuration of the C9 witness (both offsets given:
the byte offset wins). -/
def c9CfgBytes : Config := { offset := 3, offset_bytes := 100 }

/-- C9 witness: sector offset 3 resolves to 3 * 512, byte offset 100 wins
over sector offset 3, and a concrete run's open and count events carry the
resolved offset. -/
theorem c9_offset_witness :
    resolvedOffset c9CfgSector = 3 * SECTOR_SIZE ∧
    resolvedOffset c9CfgBytes = 100 ∧
    ((collect c9WitnessWorld c9CfgBytes).events).all (eventOffsetOk 100) = true := by
  refine ⟨?_, ?_, ?_⟩
  · exact (c9_offset_resolution c9WitnessWorld c9CfgSector).2.1 (by decide)
  · exact (c9_offset_resolution c9WitnessWorld c9CfgBytes).1 (by decide)
  · exact (c9_offset_resolution c9WitnessWorld c9CfgBytes).2.2.1

/- ---------------------------------------------------------------- C3 -/

/-- C3: in the regular-file branch of a snapshot-store walk (VSS run,
handle with a non-negative store number), an entry whose inode already has
its timestamp fingerprint recorded in the run's dedup table is skipped
without enqueueing and without touching the table; otherwise the
fingerprint is appended under that inode and the 'VSS'-typed descriptor is
enqueued.  The fingerprint is a function of exactly the four timestamp
pairs (access, creation, modification, change), absent fields defaulting
to zero, hashed over their concatenated decimal representations. -/
theorem c3_snapshot_dedup (md5 : String → String) (h : FsHandle)
    (hsn : h.store_nr ≥ 0) (path n : String) (m : TskMeta) (hl : Hashlist) :
    (hlMember hl m.addr (calculateNTFSTimeHash md5 m) = true →
      processRegFile md5 true h path n m.addr m hl = ([], hl)) ∧
    (hlMember hl m.addr (calculateNTFSTimeHash md5 m) = false →
      processRegFile md5 true h path n m.addr m hl =
        ([Event.enqueue
            { type := "VSS", vss_store_number := some h.store_nr,
              container_path := some h.path, image_offset := some h.offset,
              image_inode := some m.addr, file_path := osPathJoin path n }],
          hlRecord hl m.addr (calculateNTFSTimeHash md5 m))) ∧
    (∀ m' : TskMeta,
      tsField m'.atime = tsField m.atime →
      tsField m'.atime_nano = tsField m.atime_nano →
      tsField m'.crtime = tsField m.crtime →
      tsField m'.crtime_nano = tsField m.crtime_nano →
      tsField m'.mtime = tsField m.mtime →
      tsField m'.mtime_nano = tsField m.mtime_nano →
      tsField m'.ctime = tsField m.ctime →
      tsField m'.ctime_nano = tsField m.ctime_nano →
      calculateNTFSTimeHash md5 m' = calculateNTFSTimeHash md5 m) ∧
    (calculateNTFSTimeHash md5 m = md5 (
      "atime:" ++ toString (tsField m.atime) ++ "." ++
        toString (tsField m.atime_nano) ++
      "crtime:" ++ toString (tsField m.crtime) ++ "." ++
        toString (tsField m.crtime_nano) ++
      "mtime:" ++ toString (tsField m.mtime) ++ "." ++
        toString (tsField m.mtime_nano) ++
      "ctime:" ++ toString (tsField m.ctime) ++ "." ++
        toString (tsField m.ctime_nano))) := by
  refine ⟨?_, ?_, ?_, rfl⟩
  · intro hmem
    exact processRegFile_dup md5 h path n m.addr m hl hmem
  · intro hmem
    simp [processRegFile, hmem, hsn]
  · intro m' h1 h2 h3 h4 h5 h6 h7 h8
    simp only [calculateNTFSTimeHash, ntfsTimeString, h1, h2, h3, h4, h5, h6, h7, h8]

/-- The metadata record of the C3 witness. -/
def c3Meta : TskMeta := { addr := 5, ftype := FType.reg, atime := some 7 }

/-- The snapshot-store handle of the C3 witness (store number 2). -/
def c3Handle : FsHandle := { path := "img", offset := 0, store_nr := 2 }

/-- C3 witness: with the fingerprint already recorded under inode 5 the
entry is dropped and the table unchanged; with an empty table the
descriptor is enqueued and the fingerprint recorded. -/
theorem c3_snapshot_dedup_witness :
    processRegFile id true c3Handle "/" "a" c3Meta.addr c3Meta
        [(5, [calculateNTFSTimeHash id c3Meta])] =
      ([], [(5, [calculateNTFSTimeHash id c3Meta])]) ∧
    processRegFile id true c3Handle "/" "a" c3Meta.addr c3Meta [] =
      ([Event.enqueue
          { type := "VSS", vss_store_number := some 2,
            container_path := some "img", image_offset := some 0,
            image_inode := some 5, file_path := "/a" }],
        hlRecord [] 5 (calculateNTFSTimeHash id c3Meta)) := by
  constructor
  · exact (c3_snapshot_dedup id c3Handle (by decide) "/" "a" c3Meta
      [(5, [calculateNTFSTimeHash id c3Meta])]).1 (by decide)
  · exact (c3_snapshot_dedup id c3Handle (by decide) "/" "a" c3Meta []).2.1
      (by decide)

/- ---------------------------------------------------------------- C4 -/

/-- The shared metadata record of the two C4 counterexample entries (same
inode, same timestamps). -/
def c4Meta : TskMeta := { addr := 7, ftype := FType.reg }

/-- The external world of the C4 counterexample: a main volume whose root
holds two allocated regular-file entries 'a' and 'b' that resolve to the
same inode with identical timestamps; no snapshot store. -/
def c4World : World :=
  { md5 := id,
    main := some
      { root :=
          Flist.cons { name := some "a", meta := some c4Meta } 0 Flist.nil
            (Flist.cons { name := some "b", meta := some c4Meta } 0 Flist.nil
              Flist.nil) } }

/-- The configuration of the C4 counterexample: snapshot collection
enabled. -/
def c4Cfg : Config := { parse_vss := true }

/-- C4 counterexample: with snapshot collection enabled, the main-volume
walk does NOT enqueue every discovered regular file — `ParseImageDir`
gates deduplication on `self._vss` (source line 284), not on walking a
snapshot, so the second entry ('/b', same inode and timestamps as '/a') is
suppressed by the dedup table during the main-volume walk; with
`parse_vss=False` both are enqueued. -/
theorem c4_counterexample :
    enqueuedPaths (collect c4World c4Cfg).events = ["/a"] ∧
    "/b" ∉ enqueuedPaths (collect c4World c4Cfg).events ∧
    enqueuedPaths (collect c4World { c4Cfg with parse_vss := false }).events =
      ["/a", "/b"] := by
  refine ⟨by decide, by decide, by decide⟩

/-- C4 (amended): the dedup table is consulted and updated during every
image walk of a run with snapshot collection enabled — including the
main-volume walk (handle store number < 0): an already-recorded
(inode, fingerprint) pair is suppressed there exactly as in a snapshot
walk.  Only when snapshot collection is disabled does the main-volume walk
enqueue every discovered regular file without consulting or updating the
table. -/
theorem c4_dedup_scope_amended (md5 : String → String) (h : FsHandle)
    (hsn : h.store_nr < 0) (path n : String) (m : TskMeta) (hl : Hashlist) :
    (hlMember hl m.addr (calculateNTFSTimeHash md5 m) = true →
      processRegFile md5 true h path n m.addr m hl = ([], hl)) ∧
    (hlMember hl m.addr (calculateNTFSTimeHash md5 m) = false →
      processRegFile md5 true h path n m.addr m hl =
        ([Event.enqueue
            { type := "TSK",
              container_path := some h.path, image_offset := some h.offset,
              image_inode := some m.addr, file_path := osPathJoin path n }],
          hlRecord hl m.addr (calculateNTFSTimeHash md5 m))) ∧
    (processRegFile md5 false h path n m.addr m hl =
      ([Event.enqueue
          { type := "TSK",
            container_path := some h.path, image_offset := some h.offset,
            image_inode := some m.addr, file_path := osPathJoin path n }],
        hl)) := by
  have hns : ¬ (h.store_nr ≥ 0) := by omega
  refine ⟨?_, ?_, ?_⟩
  · intro hmem
    exact processRegFile_dup md5 h path n m.addr m hl hmem
  · intro hmem
    simp [processRegFile, hmem, hns]
  · simp [processRegFile, hns]

/-- The metadata record of the C4 witness. -/
def c4WitnessMeta : TskMeta := { addr := 9, ftype := FType.reg, mtime := some 3 }

/-- The main-volume handle of the C4 witness (store sentinel -1). -/
def c4WitnessHandle : FsHandle := { path := "img", offset := 0, store_nr := -1 }

/-- C4 witness: on the main volume of a VSS-enabled run an
already-recorded fingerprint suppresses the entry, and with VSS off the
entry is enqueued without touching the table. -/
theorem c4_dedup_scope_witness :
    processRegFile id true c4WitnessHandle "/" "a" c4WitnessMeta.addr c4WitnessMeta
        [(9, [calculateNTFSTimeHash id c4WitnessMeta])] =
      ([], [(9, [calculateNTFSTimeHash id c4WitnessMeta])]) ∧
    processRegFile id false c4WitnessHandle "/" "a" c4WitnessMeta.addr c4WitnessMeta
        [] =
      ([Event.enqueue
          { type := "TSK",
            container_path := some "img", image_offset := some 0,
            image_inode := some 9, file_path := "/a" }],
        []) := by
  constructor
  · exact (c4_dedup_scope_amended id c4WitnessHandle (by decide) "/" "a"
      c4WitnessMeta [(9, [calculateNTFSTimeHash id c4WitnessMeta])]).1 (by decide)
  · exact (c4_dedup_scope_amended id c4WitnessHandle (by decide) "/" "a"
      c4WitnessMeta []).2.2

/- --------------------------------------------------------------- C10 -/

/-- C10: deduplication is keyed by inode address alone, not by path.  For
any two allocated regular-file directory entries with different names that
resolve to the same inode with identical timestamp fingerprints, a walk of
a directory holding exactly those two entries enqueues only the
first-encountered entry when snapshot mode (`parse_vss`) is on, and each
entry separately when it is off. -/
theorem c10_dedup_inode_keyed (md5 : String → String) (h : FsHandle)
    (path n1 n2 : String) (m1 m2 : TskMeta) (cf1 cf2 : Nat) (ch1 ch2 : Flist)
    (hne : n1 ≠ n2)
    (hn1 : n1 ∉ (["$OrphanFiles", ".", ".."] : List String))
    (hn2 : n2 ∉ (["$OrphanFiles", ".", ".."] : List String))
    (hf1 : m1.ftype = FType.reg) (hf2 : m2.ftype = FType.reg)
    (haddr : m2.addr = m1.addr)
    (hhash : calculateNTFSTimeHash md5 m2 = calculateNTFSTimeHash md5 m1) :
    enqueuedPaths (openedWalk md5 true h
        (Flist.cons { name := some n1, meta := some m1 } cf1 ch1
          (Flist.cons { name := some n2, meta := some m2 } cf2 ch2 Flist.nil))
        path []).events = [osPathJoin path n1] ∧
    enqueuedPaths (openedWalk md5 false h
        (Flist.cons { name := some n1, meta := some m1 } cf1 ch1
          (Flist.cons { name := some n2, meta := some m2 } cf2 ch2 Flist.nil))
        path []).events = [osPathJoin path n1, osPathJoin path n2] := by
  have hre1 : ∀ ln, readEntry { name := some n1, meta := some m1 } ln =
      EntryAct.foundReg n1 m1.addr m1 := by
    intro ln
    simp [readEntry, hn1, hf1]
  have hre2 : ∀ ln, readEntry { name := some n2, meta := some m2 } ln =
      EntryAct.foundReg n2 m2.addr m2 := by
    intro ln
    simp [readEntry, hn2, hf2]
  have hd1 : entryDir { name := some n1, meta := some m1 } = none := by
    simp [entryDir, hre1 none]
  have hd2 : entryDir { name := some n2, meta := some m2 } = none := by
    simp [entryDir, hre2 none]
  have hmem1 : hlMember [] m1.addr (calculateNTFSTimeHash md5 m1) = false := rfl
  have hmem2 : hlMember (hlRecord [] m1.addr (calculateNTFSTimeHash md5 m1))
      m2.addr (calculateNTFSTimeHash md5 m2) = true := by
    rw [haddr, hhash]
    simp [hlMember, hlRecord, hlLookup]
  constructor
  · simp only [openedWalk, classify, hre1, hre2, descend, hd1, hd2]
    rw [processRegFile_dup md5 h path n2 m2.addr m2 _
      (by rw [(processRegFile_true_new md5 h path n1 m1.addr m1 [] hmem1).1]
          exact hmem2)]
    simp only [enqueuedPaths, List.filterMap_append, List.filterMap_nil,
      List.append_nil, List.nil_append]
    exact (processRegFile_true_new md5 h path n1 m1.addr m1 [] hmem1).2
  · simp only [openedWalk, classify, hre1, hre2, descend, hd1, hd2]
    rw [(processRegFile_false_eval md5 h path n1 m1.addr m1 []).1]
    simp only [enqueuedPaths, List.filterMap_append, List.filterMap_nil,
      List.append_nil, List.nil_append]
    rw [show (List.filterMap (fun ev =>
          match ev with
          | Event.enqueue ps => some ps.file_path
          | _ => none) (processRegFile md5 false h path n1 m1.addr m1 []).1)
        = enqueuedPaths (processRegFile md5 false h path n1 m1.addr m1 []).1
        from rfl,
      show (List.filterMap (fun ev =>
          match ev with
          | Event.enqueue ps => some ps.file_path
          | _ => none) (processRegFile md5 false h path n2 m2.addr m2 []).1)
        = enqueuedPaths (processRegFile md5 false h path n2 m2.addr m2 []).1
        from rfl,
      (processRegFile_false_eval md5 h path n1 m1.addr m1 []).2,
      (processRegFile_false_eval md5 h path n2 m2.addr m2 []).2]
    rfl

/-- The shared metadata record of the two C10 witness entries. -/
def c10Meta : TskMeta := { addr := 11, ftype := FType.reg, ctime := some 4 }

/-- The snapshot-store handle of the C10 witness. -/
def c10Handle : FsHandle := { path := "img", offset := 0, store_nr := 1 }

/-- C10 witness: entries 'a' and 'b' on inode 11 with equal timestamps —
snapshot mode on enqueues only '/a', snapshot mode off enqueues both. -/
theorem c10_dedup_inode_keyed_witness :
    enqueuedPaths (openedWalk id true c10Handle
        (Flist.cons { name := some "a", meta := some c10Meta } 0 Flist.nil
          (Flist.cons { name := some "b", meta := some c10Meta } 0 Flist.nil
            Flist.nil))
        "/" []).events = ["/a"] ∧
    enqueuedPaths (openedWalk id false c10Handle
        (Flist.cons { name := some "a", meta := some c10Meta } 0 Flist.nil
          (Flist.cons { name := some "b", meta := some c10Meta } 0 Flist.nil
            Flist.nil))
        "/" []).events = ["/a", "/b"] := by
  have h := c10_dedup_inode_keyed id c10Handle "/" "a" "b" c10Meta c10Meta
    0 0 Flist.nil Flist.nil (by decide) (by decide) (by decide) rfl rfl rfl rfl
  exact h

/- ---------------------------------------------------------------- C6 -/

/-- The external world of the C6 counterexample: openable empty main
volume, one snapshot store. -/
def c6World : World := { md5 := id, main := some { root := Flist.nil }, vssCount := 1 }

/-- The configuration of the C6 counterexample. -/
def c6Cfg : Config := { parse_vss := true }

/-- C6 counterexample: snapshot store 0 is selected for this run, yet the
whole `Collect()` trace contains no snapshot-store open — `Collect()`
raises `NameError` at the first iteration of its store loop, before
`CollectFromVss` — so the selected stores are never processed (in
ascending order or otherwise), refuting "the selected snapshot stores are
processed strictly in ascending store-number order". -/
theorem c6_counterexample :
    (getVssStores c6World c6Cfg (resolvedOffset c6Cfg)).1 = [0] ∧
    ((collect c6World c6Cfg).events).all (fun ev => !(Event.isOpenVss ev)) = true ∧
    (collect c6World c6Cfg).err.isSome = true := by
  refine ⟨by decide, by decide, by decide⟩

/-- C6 (amended): within one `Collect()` run every main-volume descriptor
is enqueued before any snapshot store could be opened — indeed the trace
never contains a snapshot-store open at all (when at least one store is
selected the store loop raises `NameError` at its first iteration, and
otherwise the loop is empty) — and the selected-store list is strictly
ascending whenever no truthy explicit store list is configured (an
explicit list would be traversed in its configured order). -/
theorem c6_ordering_amended (w : World) (cfg : Config) (offset : Int) :
    ((collect w cfg).events).all (fun ev => !(Event.isOpenVss ev)) = true ∧
    (listTruthy cfg.vss_stores = false →
      List.Sorted (· < ·) (getVssStores w cfg offset).1) := by
  constructor
  · exact collect_no_openVss w cfg
  · intro hfalse
    have hrange : List.Sorted (· < ·) (pyRange 0 (w.vssCount : Int)) := by
      unfold pyRange
      refine List.Pairwise.map _ ?_ (List.pairwise_lt_range w.vssCount)
      intro a b hab
      omega
    by_cases hv : cfg.parse_vss
    · simp [getVssStores, hv, hfalse, hrange]
    · simp only [Bool.not_eq_true] at hv
      simp [getVssStores, hv]

/-- The external world of the C6 witness: three snapshot stores. -/
def c6WitnessWorld : World :=
  { md5 := id, main := some { root := Flist.nil }, vssCount := 3 }

/-- C6 witness: no snapshot open in the trace, and the default selection
[0, 1, 2] is strictly ascending. -/
theorem c6_ordering_witness :
    ((collect c6WitnessWorld c6Cfg).events).all (fun ev => !(Event.isOpenVss ev)) = true ∧
    List.Sorted (· < ·) (getVssStores c6WitnessWorld c6Cfg 0).1 :=
  ⟨(c6_ordering_amended c6WitnessWorld c6Cfg 0).1,
   (c6_ordering_amended c6WitnessWorld c6Cfg 0).2 (by decide)⟩

/- ---------------------------------------------------------------- C7 -/

/-- C7: a directory whose open fails once and succeeds on the retry yields
exactly the same walk result (descriptors, dedup state, outcome) as one
that never fails, both at the top of a walk (`parseImageDir` with failure
count 1 versus 0) and for a subdirectory reached during descent; a
directory whose open fails twice (failure count >= 2) is abandoned with no
events, no state change and no exception — and during descent the
remaining sibling subtrees are still walked exactly as if the failed entry
were not there. -/
theorem c7_dir_retry (md5 : String → String) (v : Bool) (h : FsHandle)
    (content : Flist) (cur_inode : Nat) (path : String) (hl : Hashlist)
    (e : EntryData) (child rest : Flist) :
    (parseImageDir md5 v h 1 content cur_inode path false hl =
      parseImageDir md5 v h 0 content cur_inode path false hl) ∧
    (∀ k : Nat, parseImageDir md5 v h (k + 2) content cur_inode path false hl =
      ⟨[], hl, none⟩) ∧
    (descend md5 v h (Flist.cons e 1 child rest) path hl =
      descend md5 v h (Flist.cons e 0 child rest) path hl) ∧
    (∀ k : Nat, descend md5 v h (Flist.cons e (k + 2) child rest) path hl =
      descend md5 v h rest path hl) := by
  refine ⟨rfl, ?_, ?_, ?_⟩
  · intro k
    have h1 : ¬ (k + 2 ≤ (if false then 1 else 0 : Nat)) := by simp
    have h2 : ¬ (k + 2 ≤ 1) := by omega
    simp [parseImageDir, h1, h2]
  · cases hd : entryDir e <;> simp [descend, hd]
  · intro k
    have h2 : ¬ (k + 2 ≤ 1) := by omega
    cases hd : entryDir e with
    | none => simp [descend, hd]
    | some p =>
      obtain ⟨n, a⟩ := p
      simp [descend, hd, h2]

/- ---------------------------------------------------------------- C8 -/

/-- The C8 failing input: a directory whose single entry's very first
attribute read (`f.info.name`) raises `AttributeError`, before the local
`name_str` was ever assigned in this `ParseImageDir` invocation. -/
def c8BadDir : Flist :=
  Flist.cons { readFail := some ReadStage.atName } 0 Flist.nil Flist.nil

/-- The external world of the C8 run. -/
def c8World : World := { md5 := id, main := some { root := c8BadDir } }

/-- The configuration of the C8 run. -/
def c8Cfg : Config := {}

/-- The main-volume handle of the C8 walk. -/
def c8Handle : FsHandle := { path := "img", offset := 0, store_nr := -1 }

/-- C8, code bug: the `except AttributeError` handler (source lines
255-258) logs the local `name_str`, which is unbound when the failure hits
the first entry before `name_str = tsk_name.name` ran, so instead of
logging and skipping that entry the walk raises `UnboundLocalError`,
aborting the directory walk and the whole run (the queue is never closed).
The final conjunct shows the intended behaviour does hold when the failure
strikes after the entry's name was read: that entry alone is skipped and
the walk continues with the remaining entries. -/
theorem c8_unbound_name_str :
    parseImageDir id false c8Handle 0 c8BadDir 0 "/" false [] =
      ⟨[], [], some (PyErr.unboundLocal "name_str")⟩ ∧
    (run c8World c8Cfg).err = some (PyErr.unboundLocal "name_str") ∧
    (run c8World c8Cfg).events.count Event.closeQueue = 0 ∧
    enqueuedPaths (parseImageDir id false c8Handle 0
        (Flist.cons
          { name := some "x", meta := some { addr := 3, ftype := FType.reg },
            readFail := some ReadStage.atAddr } 0 Flist.nil
          (Flist.cons
            { name := some "y", meta := some { addr := 4, ftype := FType.reg } }
            0 Flist.nil Flist.nil))
        0 "/" false []).events = ["/y"] := by
  refine ⟨by decide, by decide, by decide, by decide⟩

end Plaso
